import Mathlib

/-!
Verification of the Bolagsplatsen scraper (src/api.py and
src/bolagsplatsen_scraper/spiders/bolagsplatsen.py) against its
natural-language specification.

Python strings are modelled as `List Char` (`Str` below).  Python string
primitives (`str.lower`, `str.strip`, `str.replace`, `str.capitalize`,
`str.title`, substring `in`, `str.count`, `str.startswith`, `int(...)`,
`f"{n:,}"`, `re.findall` digit/whitespace runs) are modelled by the
executable functions in this first section.  Case mapping is modelled on the
ASCII and Latin-1 ranges, which covers every character occurring in the
scraper's fixed tables and in Swedish page text; `\d` of the Python regexes
is modelled as the ASCII digits.
-/

namespace Scraper

abbrev Str := List Char

/-- Whitespace characters matched by Python `str.strip()` and by `\s` in a
Python 3 (Unicode) regular expression. -/
def pyWhitespace (c : Char) : Bool :=
  c = ' ' || c = '\t' || c = '\n' || c = '\x0d' || c = '\x0b' || c = '\x0c' ||
  c = '\x1c' || c = '\x1d' || c = '\x1e' || c = '\x1f' || c = '\x85' ||
  c = '\xa0' || c.toNat = 0x1680 ||
  (0x2000 ≤ c.toNat && c.toNat ≤ 0x200a) ||
  c.toNat = 0x2028 || c.toNat = 0x2029 || c.toNat = 0x202f ||
  c.toNat = 0x205f || c.toNat = 0x3000

/-- Python `str.lower` on one character (ASCII plus the Latin-1 letters used
by the Swedish vocabulary: Å Ä Ö É …). -/
def pyLowerChar (c : Char) : Char :=
  if 'A' ≤ c ∧ c ≤ 'Z' then Char.ofNat (c.toNat + 32)
  else if '\xc0' ≤ c ∧ c ≤ '\xde' ∧ c ≠ '\xd7' then Char.ofNat (c.toNat + 32)
  else c

/-- Python `str.upper` on one character (same ranges as `pyLowerChar`). -/
def pyUpperChar (c : Char) : Char :=
  if 'a' ≤ c ∧ c ≤ 'z' then Char.ofNat (c.toNat - 32)
  else if '\xe0' ≤ c ∧ c ≤ '\xfe' ∧ c ≠ '\xf7' then Char.ofNat (c.toNat - 32)
  else c

def pyLower (s : Str) : Str := s.map pyLowerChar

/-- Python `str.strip()` with no argument: remove whitespace at both ends. -/
def pyStrip (s : Str) : Str :=
  ((s.dropWhile pyWhitespace).reverse.dropWhile pyWhitespace).reverse

/-- Python `str.capitalize()`: first character upper-cased, the rest
lower-cased. -/
def pyCapitalize (s : Str) : Str :=
  match s with
  | [] => []
  | c :: rest => pyUpperChar c :: pyLower rest

/-- Cased letter test used by `pyTitle` (ASCII and Latin-1 letters). -/
def pyIsAlphaChar (c : Char) : Bool :=
  ('a' ≤ c && c ≤ 'z') || ('A' ≤ c && c ≤ 'Z') ||
  ('\xc0' ≤ c && c ≤ '\xff' && c ≠ '\xd7' && c ≠ '\xf7')

def pyTitleGo : Bool → Str → Str
  | _, [] => []
  | prevAlpha, c :: rest =>
    (if prevAlpha then pyLowerChar c else pyUpperChar c) ::
      pyTitleGo (pyIsAlphaChar c) rest

/-- Python `str.title()`: upper-case every letter that follows a non-letter,
lower-case the other letters. -/
def pyTitle (s : Str) : Str := pyTitleGo false s

/-- Python substring test `needle in hay`. -/
def containsSub (needle : Str) : Str → Bool
  | [] => decide (needle = [])
  | c :: rest => needle.isPrefixOf (c :: rest) || containsSub needle rest

/-- Python `str.startswith`. -/
def pyStartsWith (s p : Str) : Bool := p.isPrefixOf s

/-- Python `str.count` for a single character. -/
def pyCount (s : Str) (c : Char) : Nat := s.countP (· = c)

def pyReplaceGo : Nat → Str → Str → Str → Str
  | 0, s, _, _ => s
  | _ + 1, [], _, _ => []
  | fuel + 1, c :: rest, pat, rep =>
    if pat ≠ [] ∧ pat.isPrefixOf (c :: rest) then
      rep ++ pyReplaceGo fuel ((c :: rest).drop pat.length) pat rep
    else
      c :: pyReplaceGo fuel rest pat rep

/-- Python `str.replace(pat, rep)`: replace the non-overlapping occurrences
of `pat` left to right (structural fuel equal to the string length, which a
non-empty pattern can never exhaust). -/
def pyReplace (s pat rep : Str) : Str := pyReplaceGo s.length s pat rep

def runsOfGo (p : Char → Bool) : Nat → Str → List Str
  | 0, _ => []
  | _ + 1, [] => []
  | fuel + 1, c :: rest =>
    if p c then (c :: rest.takeWhile p) :: runsOfGo p fuel (rest.dropWhile p)
    else runsOfGo p fuel rest

/-- `re.findall(r'[X]+', s)`: the maximal runs of characters satisfying `p`,
in order. -/
def runsOf (p : Char → Bool) (s : Str) : List Str := runsOfGo p s.length s

def digitsToNat (s : Str) : Nat := s.foldl (fun acc c => 10 * acc + (c.toNat - 48)) 0

/-- Python `int(s)` restricted to the shapes reachable in this program
(optional surrounding whitespace around a run of ASCII digits); any other
shape raises `ValueError`, modelled as `none`. -/
def pyInt (s : Str) : Option Nat :=
  let t := pyStrip s
  if t ≠ [] ∧ t.all Char.isDigit then some (digitsToNat t) else none

/-- Decimal digits of `n`. -/
def natDigits (n : Nat) : Str := Nat.toDigits 10 n

def commaGroupRev : Str → Str
  | a :: b :: c :: d :: rest => a :: b :: c :: ',' :: commaGroupRev (d :: rest)
  | s => s

/-- Python `f"{n:,}"` for a natural number: decimal digits with a comma
every three digits from the right. -/
def commaGroup (n : Nat) : Str := (commaGroupRev (natDigits n).reverse).reverse

/-- `' '.join(l)`. -/
def joinSpace (l : List Str) : Str := (l.intersperse [' ']).flatten

/-- Python truthiness of an optional string: a missing key or an empty
string is falsy. -/
def truthy : Option Str → Bool
  | none => false
  | some s => s ≠ []

def natLog2Go : Nat → Nat → Nat
  | 0, _ => 0
  | fuel + 1, n => if n ≥ 2 then natLog2Go fuel (n / 2) + 1 else 0

/-- `Nat.log2` via structural fuel so that the kernel can evaluate it. -/
def natLog2 (n : Nat) : Nat := natLog2Go n n

/-!
## Model of `src/api.py`
-/

/-- The fixed Swedish→English substitution table `TRANSLATIONS` of
`src/api.py`, in declaration (= Python dict insertion) order. -/
def TRANSLATIONS : List (Str × Str) :=
  [("företag".data, "company".data), ("verksamhet".data, "business".data),
   ("firma".data, "firm".data),
   ("omsättning".data, "revenue".data), ("resultat".data, "profit".data),
   ("vinst".data, "profit".data), ("förlust".data, "loss".data),
   ("intäkter".data, "income".data), ("kostnader".data, "costs".data),
   ("handel".data, "trade".data), ("tillverkning".data, "manufacturing".data),
   ("tjänster".data, "services".data), ("hotell".data, "hotel".data),
   ("restaurang".data, "restaurant".data), ("e-handel".data, "e-commerce".data),
   ("bygg".data, "construction".data), ("transport".data, "transport".data),
   ("hälsa".data, "health".data), ("utbildning".data, "education".data),
   ("finans".data, "finance".data), ("fastighet".data, "real estate".data),
   ("stockholm".data, "Stockholm".data), ("göteborg".data, "Gothenburg".data),
   ("malmö".data, "Malmö".data), ("uppsala".data, "Uppsala".data),
   ("västerås".data, "Västerås".data), ("örebro".data, "Örebro".data),
   ("lönsamt".data, "profitable".data), ("olönsamt".data, "unprofitable".data),
   ("nytt".data, "new".data), ("etablerat".data, "established".data),
   ("växande".data, "growing".data), ("stabil".data, "stable".data),
   ("till".data, "for".data), ("salu".data, "sale".data),
   ("köp".data, "buy".data), ("sälj".data, "sell".data),
   ("bra".data, "good".data), ("mycket".data, "very".data),
   ("stor".data, "large".data), ("liten".data, "small".data)]

/-- Apply a substitution table over the lower-cased input and capitalize,
exactly as `translate_text` does for a given entry order. -/
def translateWith (table : List (Str × Str)) (text : Str) : Str :=
  if text = [] then text
  else
    pyCapitalize (table.foldl (fun acc kv => pyReplace acc kv.1 kv.2) (pyLower text))

/-- `translate_text` of `src/api.py`: lower-case, apply `TRANSLATIONS` in
declaration order by whole-string replacement, then `str.capitalize`.
(`if not text: return text` handles the empty string.) -/
def translate_text (text : Str) : Str := translateWith TRANSLATIONS text

/-- The IEEE-754 binary64 value of the literal `0.095` (`SEK_TO_USD`) is
exactly `D095_NUM / 2 ^ 55`. -/
def D095_NUM : Nat := 3422735716801577

/-- Round `M / 2 ^ e` to the nearest integer, ties to even (the rounding of
both IEEE-754 binary64 arithmetic and Python `round`). -/
def rneDiv (M : Nat) (e : Nat) : Nat :=
  let d := 2 ^ e
  let q := M / d
  let r := M % d
  if 2 * r > d then q + 1 else if 2 * r < d then q else q + q % 2

/-- `round(price * SEK_TO_USD)` of `src/api.py` for a parsed integer price:
the exact product `price * 0.095` is `price * D095_NUM / 2 ^ 55`; it is first
rounded to a binary64 float (53-bit significand, round to nearest, ties to
even) exactly as the Python multiplication does, and the resulting float is
then rounded to an integer half-to-even exactly as Python `round` does.
Overflow to infinity (prices of more than ~309 digits) is outside the model. -/
def sekRound (price : Nat) : Nat :=
  let N := price * D095_NUM
  if N = 0 then 0
  else
    let bits := natLog2 N + 1
    if bits ≤ 53 then rneDiv N 55
    else
      let shift := bits - 53
      let M := rneDiv N shift
      if 55 ≤ shift then M * 2 ^ (shift - 55)
      else rneDiv M (55 - shift)

/-- `convert_currency` of `src/api.py`: collect the maximal runs of
digit-or-whitespace characters (`re.findall(r'[\d\s]+', price_str)`), join
them, delete the ASCII spaces (`.replace(' ', '')`), parse with `int`;
on success render `f"${usd_price:,}"`, on `ValueError` or when no run was
found return the input unchanged. -/
def convert_currency (price_str : Str) : Str :=
  if price_str = [] then price_str
  else
    let numbers := runsOf (fun c => c.isDigit || pyWhitespace c) price_str
    if numbers = [] then price_str
    else
      match pyInt (pyReplace numbers.flatten [' '] []) with
      | none => price_str
      | some price => '$' :: commaGroup (sekRound price)

/-- A scraped item, as produced by the spider and read back by
`run_scraper` from `bolagsplatsen_listings.json`.  A Scrapy `Field` the
spider never assigned has no key in the exported dict, modelled as `none`. -/
structure Item where
  title : Option Str := none
  url : Option Str := none
  description : Option Str := none
  full_description : Option Str := none
  structured_content : Option (List (Str × Str)) := none
  product_id : Option Str := none
  price : Option Str := none
  category : Option Str := none
  location : Option Str := none
  revenue : Option Str := none
  profit_status : Option Str := none
  employee_count : Option Str := none
  broker_name : Option Str := none
  broker_company : Option Str := none
  broker_photo : Option Str := none
  company_logo : Option Str := none
  phone : Option Str := none
  email : Option Str := none
  detailed_revenue : Option Str := none
  detailed_profit : Option Str := none
  financial_details : Option (List Str) := none
  listing_type : Option Str := none
  scraped_at : Option Str := none
deriving DecidableEq

/-- One `{"infoSummary": …, "infoItems": […]}` details section of the API
output. -/
structure InfoSection where
  infoSummary : Str
  infoItems : List Str
deriving DecidableEq

/-- One record of the transformed API output built inside `run_scraper`. -/
structure TransformedItem where
  title : Str
  company : Str
  location : Str
  price : Str
  category : Str
  industry : Str
  link : Str
  details : List InfoSection
  business_name : Str
  contact_name : Str
  phone_number : Str
deriving DecidableEq

/-- The fixed `section_names` table of `run_scraper`. -/
def section_names : List (Str × Str) :=
  [("company_brief".data, "Company Overview".data),
   ("potential".data, "Growth Potential".data),
   ("reason_for_sale".data, "Reason for Sale".data),
   ("price_idea".data, "Pricing Details".data),
   ("summary".data, "Summary".data),
   ("description".data, "Description".data),
   ("business_activity".data, "Business Activity".data),
   ("market".data, "Market Information".data),
   ("competition".data, "Competitive Situation".data)]

/-- The structured-content sections of the details list: one section per
`structured_content` entry whose value is truthy and longer than 20
characters once stripped, titled by `section_names` with the
`key.replace('_', ' ').title()` fallback. -/
def structuredSections (sc : List (Str × Str)) : List InfoSection :=
  sc.filterMap (fun kv =>
    if kv.2 ≠ [] ∧ (pyStrip kv.2).length > 20 then
      some { infoSummary := match section_names.lookup kv.1 with
               | some t => t
               | none => pyTitle (pyReplace kv.1 "_".data " ".data)
             infoItems := [translate_text kv.2] }
    else none)

/-- The `financial_items` list of `run_scraper`, in source order: revenue,
detailed revenue, profit status, detailed profit, asking price, then the
`financial_details` entries. -/
def financialItems (item : Item) : List Str :=
  (if truthy item.revenue then
     ["Revenue: ".data ++ translate_text (item.revenue.getD [])] else []) ++
  (if truthy item.detailed_revenue then
     ["Detailed Revenue: ".data ++ translate_text (item.detailed_revenue.getD [])] else []) ++
  (if truthy item.profit_status then
     ["Profit Status: ".data ++ translate_text (item.profit_status.getD [])] else []) ++
  (if truthy item.detailed_profit then
     ["Detailed Profit: ".data ++ translate_text (item.detailed_profit.getD [])] else []) ++
  (if truthy item.price then
     ["Asking Price: ".data ++ convert_currency (item.price.getD [])] else []) ++
  (match item.financial_details with
   | some ds => if ds ≠ [] then ds.map translate_text else []
   | none => [])

/-- The `details_sections` list of `run_scraper`: description, structured
content, financial information, business metrics, contact information; a
group with no constituent item is omitted entirely. -/
def detailsSections (item : Item) : List InfoSection :=
  let descriptionText :=
    if truthy item.full_description then item.full_description.getD []
    else item.description.getD []
  (if descriptionText ≠ [] then
     [{ infoSummary := "Business Description".data
        infoItems := [translate_text descriptionText] }] else []) ++
  (match item.structured_content with
   | some sc => if sc ≠ [] then structuredSections sc else []
   | none => []) ++
  (let fin := financialItems item
   if fin ≠ [] then
     [{ infoSummary := "Financial Information".data, infoItems := fin }] else []) ++
  (let bus :=
     if truthy item.employee_count then
       ["Employees: ".data ++ translate_text (item.employee_count.getD [])] else []
   if bus ≠ [] then
     [{ infoSummary := "Business Metrics".data, infoItems := bus }] else []) ++
  (let contact :=
     (if truthy item.phone then ["Phone: ".data ++ item.phone.getD []] else []) ++
     (if truthy item.email then ["Email: ".data ++ item.email.getD []] else []) ++
     (if truthy item.broker_name then
        ["Broker: ".data ++ translate_text (item.broker_name.getD [])] else []) ++
     (if truthy item.broker_company then
        ["Broker Company: ".data ++ translate_text (item.broker_company.getD [])] else [])
   if contact ≠ [] then
     [{ infoSummary := "Contact Information".data, infoItems := contact }] else [])

/-- The per-item transformation of `run_scraper` (src/api.py lines 120-219):
translation, currency conversion and assembly of the output record.
`phone_number` uses `item.get('phone', 'Contact via website')`: the default
applies only when the key is absent. -/
def transform_item (item : Item) : TransformedItem :=
  { title := translate_text (item.title.getD [])
    company := translate_text (match item.broker_company with
      | some v => v
      | none => item.broker_name.getD [])
    location := translate_text (item.location.getD [])
    price := convert_currency (item.price.getD [])
    category := translate_text (item.category.getD [])
    industry := translate_text (item.category.getD [])
    link := item.url.getD []
    details := detailsSections item
    business_name := translate_text (item.title.getD [])
    contact_name := translate_text (item.broker_name.getD [])
    phone_number := match item.phone with
      | some p => p
      | none => "Contact via website".data }

def dedupGo (seenTitles seenLinks : List Str) :
    List TransformedItem → List TransformedItem
  | [] => []
  | r :: rest =>
    if r.title ∉ seenTitles ∧ r.link ∉ seenLinks then
      r :: dedupGo (r.title :: seenTitles) (r.link :: seenLinks) rest
    else dedupGo seenTitles seenLinks rest

/-- The duplicate-removal pass at the end of `run_scraper` (src/api.py lines
223-238): keep a record only when neither its title nor its link occurred on
a previously kept record. -/
def dedup (l : List TransformedItem) : List TransformedItem := dedupGo [] [] l

/-!
## Model of `src/bolagsplatsen_scraper/spiders/bolagsplatsen.py`: listing page

Selector results (`response.css(...)`) are supplied by the page structures
below, one field per selector in the source; the extraction logic over those
results is modelled exactly.
-/

/-- A decoded JSON value (a `json.loads` result).  Numbers are modelled as
integers, which covers the identifier and price payloads of the site's
JSON-LD. -/
inductive Json where
  | null
  | bool (b : Bool)
  | num (n : Int)
  | str (s : Str)
  | arr (elems : List Json)
  | obj (fields : List (Str × Json))

/-- The Python exception classes relevant to the spider's `parse`. -/
inductive PyErr where
  | typeError
  | keyError
  | attributeError
deriving DecidableEq

instance instDecEqExcept {ε α : Type} [DecidableEq ε] [DecidableEq α] :
    DecidableEq (Except ε α) := fun x y =>
  match x, y with
  | .ok a, .ok b =>
    if h : a = b then isTrue (by rw [h]) else isFalse (by simp [h])
  | .error a, .error b =>
    if h : a = b then isTrue (by rw [h]) else isFalse (by simp [h])
  | .ok _, .error _ => isFalse (by simp)
  | .error _, .ok _ => isFalse (by simp)

/-- Python `k in j` for a decoded JSON value: key test on a dict, substring
test on a string, membership test on a list; `in` against None, a bool or a
number raises `TypeError`. -/
def pyIn (k : Str) : Json → Except PyErr Bool
  | .obj fields => .ok (fields.any (fun kv => kv.1 == k))
  | .str s => .ok (containsSub k s)
  | .arr elems =>
    .ok (elems.any (fun e => match e with | .str s => s == k | _ => false))
  | _ => .error .typeError

/-- Python `j[k]` for a string key `k`: dict lookup (`KeyError` when the key
is missing); subscripting a string, list, None, bool or number with a string
key raises `TypeError`. -/
def pyGet (k : Str) : Json → Except PyErr Json
  | .obj fields =>
    (match fields.lookup k with
     | some v => .ok v
     | none => .error .keyError)
  | _ => .error .typeError

def intStr (n : Int) : Str :=
  if n < 0 then '-' :: natDigits n.natAbs else natDigits n.toNat

/-- A quoted string as Python `repr` renders it. -/
def quoteStr (s : Str) : Str := Char.ofNat 39 :: (s ++ [Char.ofNat 39])

mutual

/-- Python `repr` of a decoded JSON value (used for values nested inside
containers; `\x7b`/`\x7d` denote the brace characters). -/
def reprJson : Json → Str
  | .null => "None".data
  | .bool true => "True".data
  | .bool false => "False".data
  | .num n => intStr n
  | .str s => quoteStr s
  | .arr elems => '[' :: (reprJsonElems elems ++ [']'])
  | .obj fields => "\x7b".data ++ (reprJsonFields fields ++ "\x7d".data)

def reprJsonElems : List Json → Str
  | [] => []
  | [j] => reprJson j
  | j :: j2 :: rest => reprJson j ++ ", ".data ++ reprJsonElems (j2 :: rest)

def reprJsonFields : List (Str × Json) → Str
  | [] => []
  | [(k, v)] => quoteStr k ++ ": ".data ++ reprJson v
  | (k, v) :: kv2 :: rest =>
    quoteStr k ++ ": ".data ++ reprJson v ++ ", ".data ++ reprJsonFields (kv2 :: rest)

end

/-- Python `str()` of a decoded JSON value, as interpolated by the f-strings
that build the price: scalars and strings render plainly, containers render
as their `repr`. -/
def pyStrJson : Json → Str
  | .str s => s
  | j => reprJson j

/-- Split at the first occurrence of `pat`: `(before, after)`. -/
def splitAtSub : Str → Str → Option (Str × Str)
  | [], pat => if pat = [] then some ([], []) else none
  | c :: rest, pat =>
    if pat ≠ [] ∧ pat.isPrefixOf (c :: rest) then some ([], (c :: rest).drop pat.length)
    else
      match splitAtSub rest pat with
      | some (pre, post) => some (c :: pre, post)
      | none => none

/-- The `scheme://host` part of an absolute URL. -/
def schemeHost (base : Str) : Str :=
  match splitAtSub base "://".data with
  | some (pre, post) => pre ++ "://".data ++ post.takeWhile (fun c => c ≠ '/')
  | none => base

/-- The base URL up to and including its last '/'. -/
def upToLastSlash (s : Str) : Str :=
  (s.reverse.dropWhile (fun c => c ≠ '/')).reverse

/-- `urllib.parse.urljoin(base, url)` for the shapes this site produces: an
absolute URL passes through, a scheme-relative URL takes the base's scheme,
a host-relative path (leading '/') joins the base's scheme and host, and any
other relative path replaces the base's last path segment.  Query/fragment
merging and dot segments do not occur here and are not modelled. -/
def urljoin (base url : Str) : Str :=
  if url = [] then base
  else if pyStartsWith url "http://".data || pyStartsWith url "https://".data then url
  else if pyStartsWith url "//".data then
    (match splitAtSub base "://".data with
     | some (pre, _) => pre ++ [':'] ++ url
     | none => url)
  else if pyStartsWith url "/".data then schemeHost base ++ url
  else upToLastSlash base ++ url

/-- `re.search` of the pattern "dash, digits, end of string" used for the
product id: the trailing run of digits, when it is non-empty and preceded by
'-'. -/
def trailingId (u : Str) : Option Str :=
  let revDigits := u.reverse.takeWhile Char.isDigit
  if revDigits ≠ [] ∧ (u.reverse.drop revDigits.length).head? = some '-' then
    some revDigits.reverse
  else none

/-- `re.search` of the pattern "page=, digits" used for pagination: the
digits after the leftmost occurrence of "page=" that is followed by at least
one digit. -/
def findPageNum : Str → Option Nat
  | [] => none
  | c :: rest =>
    if "page=".data.isPrefixOf (c :: rest) then
      let ds := ((c :: rest).drop 5).takeWhile Char.isDigit
      if ds ≠ [] then some (digitsToNat ds) else findPageNum rest
    else findPageNum rest

/-- The fields assigned inside the JSON-LD `try` block of
`BolagsplatsenSpider.parse` (lines 58-81), together with the first raised
exception; assignments made before an exception are kept, matching Python
semantics.  The source stores the raw decoded values; they are modelled via
their `str()` rendering, which is exact for the string payloads this site
serves. -/
structure JsonVals where
  description : Option Str := none
  full_description : Option Str := none
  product_id : Option Str := none
  price : Option Str := none
deriving DecidableEq

def jsonPhasePrice (j : Json) (vals : JsonVals) : JsonVals × Option PyErr :=
  match pyIn "offers".data j with
  | .error e => (vals, some e)
  | .ok false => (vals, none)
  | .ok true =>
    match pyGet "offers".data j with
    | .error e => (vals, some e)
    | .ok offers =>
      match pyIn "priceSpecification".data offers with
      | .error e => (vals, some e)
      | .ok false => (vals, none)
      | .ok true =>
        match pyGet "priceSpecification".data offers with
        | .error e => (vals, some e)
        | .ok priceSpec =>
          match pyIn "price".data priceSpec with
          | .error e => (vals, some e)
          | .ok true =>
            (match pyGet "price".data priceSpec with
             | .error e => (vals, some e)
             | .ok p => ({ vals with price := some (pyStrJson p ++ " SEK".data) }, none))
          | .ok false =>
            match pyIn "minPrice".data priceSpec with
            | .error e => (vals, some e)
            | .ok false => (vals, none)
            | .ok true =>
              match pyIn "maxPrice".data priceSpec with
              | .error e => (vals, some e)
              | .ok false => (vals, none)
              | .ok true =>
                match pyGet "minPrice".data priceSpec, pyGet "maxPrice".data priceSpec with
                | .error e, _ => (vals, some e)
                | _, .error e => (vals, some e)
                | .ok mn, .ok mx =>
                  let rangePrice := pyStrJson mn ++ "-".data ++ (pyStrJson mx ++ " SEK".data)
                  ({ vals with price := some rangePrice }, none)

def jsonPhaseProductId (j : Json) (vals : JsonVals) : JsonVals × Option PyErr :=
  match pyIn "productid".data j with
  | .error e => (vals, some e)
  | .ok false => jsonPhasePrice j vals
  | .ok true =>
    match pyGet "productid".data j with
    | .error e => (vals, some e)
    | .ok v => jsonPhasePrice j { vals with product_id := some (pyStrJson v) }

/-- The statement sequence of the JSON-LD `try` block, run on the decoded
value. -/
def jsonPhase (j : Json) : JsonVals × Option PyErr :=
  match pyIn "description".data j with
  | .error e => ({}, some e)
  | .ok false => jsonPhaseProductId j {}
  | .ok true =>
    match pyGet "description".data j with
    | .error e => ({}, some e)
    | .ok v =>
      jsonPhaseProductId j
        { description := some (pyStrJson v), full_description := some (pyStrJson v) }

/-- The JSON-LD block including its `except (json.JSONDecodeError, KeyError):
pass`: an absent script, a decode failure and a `KeyError` leave the partial
values; a `TypeError` from a mistyped shape is not caught and propagates out
of `parse`.  `none` is an absent script tag; `some (.error ())` a script
whose text fails to decode; `some (.ok j)` a script decoding to `j`. -/
def runJsonLd : Option (Except Unit Json) → Except PyErr JsonVals
  | none => .ok {}
  | some (.error _) => .ok {}
  | some (.ok j) =>
    match jsonPhase j with
    | (vals, none) => .ok vals
    | (vals, some .keyError) => .ok vals
    | (_, some e) => .error e

/-- One `.item-ingredients li` node: `raw` is the full node markup returned
by `metric.get()`, `span` the first `span::text` of the node. -/
structure Metric where
  raw : Str
  span : Option Str
deriving DecidableEq

structure MetricVals where
  profit_status : Option Str := none
  revenue : Option Str := none
  price : Option Str := none
  employee_count : Option Str := none
deriving DecidableEq

/-- The metrics loop of `parse` (lines 102-124): an if/elif chain on label
substrings of the node markup; a later matching node overwrites an earlier
value of the same field. -/
def metricsFold (ms : List Metric) (init : MetricVals) : MetricVals :=
  ms.foldl (fun acc m =>
    if containsSub "Resultat".data m.raw then
      match m.span with
      | some s => if s ≠ [] then { acc with profit_status := some (pyStrip s) } else acc
      | none => acc
    else if containsSub "Omsättning".data m.raw then
      match m.span with
      | some s => if s ≠ [] then { acc with revenue := some (pyStrip s) } else acc
      | none => acc
    else if containsSub "Prisidé".data m.raw then
      match m.span with
      | some s => if s ≠ [] then { acc with price := some (pyStrip s) } else acc
      | none => acc
    else if containsSub "Anställda".data m.raw then
      match m.span with
      | some s => if s ≠ [] then { acc with employee_count := some (pyStrip s) } else acc
      | none => acc
    else acc) init

/-- The `.user-broker-detail` block of a container (`none` when the selector
matches nothing). -/
structure BrokerBlock where
  name : Option Str := none
  photo : Option Str := none
  logo : Option Str := none
  logoAlt : Option Str := none
deriving DecidableEq

/-- One `div.list-items-list` container, as seen through the selectors of
`parse`. -/
structure ListingContainer where
  titleAttr : Option Str := none
  href : Option Str := none
  jsonLd : Option (Except Unit Json) := none
  metrics : List Metric := []
  broker : Option BrokerBlock := none
  premiumTag : Option Str := none

def CATEGORY_DEFAULT : Str := "Företag till salu".data

def LOCATION_DEFAULT : Str := "Sverige".data

/-- The per-container body of `BolagsplatsenSpider.parse` (lines 36-170):
the item that `yield item` emits, or the `TypeError` escaping the JSON-LD
block (which aborts the generator).  The item is written as one record; each
field value is computed exactly at the program point at which the source
assigns it — in particular `structured_content.business_activity` reads
`category` before the constant is assigned and is therefore always the empty
string, and a `Prisidé` metric overwrites a JSON-LD price. -/
def containerParse (respUrl now : Str) (c : ListingContainer) : Except PyErr Item :=
  let title : Option Str :=
    match c.titleAttr with
    | some t => if t ≠ [] then some (pyStrip (pyReplace t "Läs mer om ".data [])) else none
    | none => none
  let url : Option Str :=
    match c.href with
    | some u => if u ≠ [] then some (urljoin respUrl u) else none
    | none => none
  match runJsonLd c.jsonLd with
  | .error e => .error e
  | .ok jv =>
    let description :=
      if truthy jv.description then jv.description else some (title.getD [])
    let full_description :=
      if truthy jv.full_description then jv.full_description
      else some (description.getD [])
    let mv := metricsFold c.metrics { price := jv.price }
    let product_id :=
      match c.href with
      | some u =>
        if u ≠ [] then
          match trailingId u with
          | some pid => some pid
          | none => jv.product_id
        else jv.product_id
      | none => jv.product_id
    let brokerName : Option Str :=
      match c.broker with
      | some b =>
        (match b.name with
         | some n => if n ≠ [] then some (pyStrip n) else none
         | none => none)
      | none => none
    let brokerPhoto : Option Str :=
      match c.broker with
      | some b =>
        (match b.photo with
         | some p => if p ≠ [] then some (urljoin respUrl p) else none
         | none => none)
      | none => none
    let companyLogo : Option Str :=
      match c.broker with
      | some b =>
        (match b.logo with
         | some lg => if lg ≠ [] then some (urljoin respUrl lg) else none
         | none => none)
      | none => none
    let brokerCompany : Option Str :=
      match c.broker with
      | some b =>
        (match b.logo with
         | some lg =>
           if lg ≠ [] then
             match b.logoAlt with
             | some alt =>
               if alt ≠ [] ∧ containsSub "företag".data (pyLower alt) then some alt
               else none
             | none => none
           else none
         | none => none)
      | none => none
    .ok { title := title, url := url, description := description,
          full_description := full_description,
          structured_content :=
            some [("company_brief".data, description.getD []),
                  ("business_activity".data, ([] : Str))],
          product_id := product_id, price := mv.price,
          category := some CATEGORY_DEFAULT, location := some LOCATION_DEFAULT,
          revenue := mv.revenue, profit_status := mv.profit_status,
          employee_count := mv.employee_count,
          broker_name := brokerName, broker_company := brokerCompany,
          broker_photo := brokerPhoto, company_logo := companyLogo,
          listing_type :=
            some (if truthy c.premiumTag then "premium".data else "regular".data),
          scraped_at := some now }

/-- A catalogue page as seen through the selectors of `parse`:
`paginationLinks` are the hrefs matched by `a[href*="page="]`. -/
structure PageResponse where
  url : Str
  containers : List ListingContainer
  paginationLinks : List Str

/-- The container loop of `parse`: the items yielded in document order; an
uncaught exception ends the generator, keeping the items yielded so far. -/
def parseItems (respUrl now : Str) : List ListingContainer → List Item × Option PyErr
  | [] => ([], none)
  | c :: rest =>
    match containerParse respUrl now c with
    | .error e => ([], some e)
    | .ok it =>
      match parseItems respUrl now rest with
      | (items, err) => (it :: items, err)

/-- The pagination tail of `parse` (lines 174-192).  `.ok (some k)`: a
request for catalogue page `k` is issued; `.ok none`: the crawl stops here;
`.error`: the uncaught `AttributeError` when "page=" occurs in the current
URL without digits after it.  The next page number is the page number of the
*current URL* plus one (2 when the current URL has no page parameter); the
pagination links only signal existence; a request is only issued when
`next_page_num ≤ 10`. -/
def paginationStep (currentUrl : Str) (paginationLinks : List Str) :
    Except PyErr (Option Nat) :=
  if paginationLinks ≠ [] then
    match (if containsSub "page=".data currentUrl then
             match findPageNum currentUrl with
             | some current => Except.ok (current + 1)
             | none => Except.error PyErr.attributeError
           else Except.ok 2 : Except PyErr Nat) with
    | .error e => .error e
    | .ok nextPageNum => .ok (if nextPageNum ≤ 10 then some nextPageNum else none)
  else .ok none

structure ParseOutcome where
  items : List Item
  err : Option PyErr
  nextPage : Option Nat
deriving DecidableEq

/-- Whole-page behaviour of `parse`: the records yielded before any uncaught
exception, the exception, and the next catalogue page requested (pagination
runs only when the container loop completed). -/
def parsePage (resp : PageResponse) (now : Str) : ParseOutcome :=
  match parseItems resp.url now resp.containers with
  | (items, some e) => { items := items, err := some e, nextPage := none }
  | (items, none) =>
    match paginationStep resp.url resp.paginationLinks with
    | .ok o => { items := items, err := none, nextPage := o }
    | .error e => { items := items, err := some e, nextPage := none }

/-- The spec's reading "the next page number is parsed from pagination
links", stated from the spec's words for comparison with `paginationStep`:
the first page number occurring in the pagination links. -/
def specNextFromLinks : List Str → Option Nat
  | [] => none
  | l :: rest =>
    match findPageNum l with
    | some n => some n
    | none => specNextFromLinks rest
/-!
## Model of the detail stage: `parse_listing_detail` and its helpers
-/

/-- One section matched by the financial selectors
`.financial-info, .business-details, .company-info`: `revenueRaws` and
`profitRaws` are the node markups returned by the `*:contains("Omsättning")`
and `*:contains("Resultat")` selectors, `texts` the `::text` nodes. -/
structure FinSection where
  revenueRaws : List Str := []
  profitRaws : List Str := []
  texts : List Str := []

/-- A listing's detail page as seen through the selectors of
`parse_listing_detail`.  Each field holds the result of one fixed selector
or regular-expression search of the source, in source order:
`mainContentAreas` the `p::text, li::text` nodes of each area matched by
`.ad-detail-body, .listing-description, .business-description,
.main-content`; `textElements` the global `p,li,h2,h3,h4 ::text` nodes;
`xpathKeys` the section headings for which the `//*[contains(text(), …)]`
lookup returns a node; `finMainContents` the first `::text` of each
keyword-bearing paragraph per `.main-content, .content, .listing-content`
area; `employeeTexts` the first `::text` of each element matched by the
employee selectors; `phoneSelResults`/`emailSelResults` the `get()` of the
fixed CSS selector lists; `phonePatResults` the `re.search` result of each
of the three phone patterns over the page text; `emailPatResult` the
`re.search` result of the email pattern. -/
structure DetailResponse where
  mainContentAreas : List (List Str) := []
  textElements : List Str := []
  xpathKeys : List Str := []
  finSections : List FinSection := []
  finMainContents : List (List (Option Str)) := []
  employeeTexts : List (Option Str) := []
  phoneSelResults : List (Option Str) := []
  emailSelResults : List (Option Str) := []
  phonePatResults : List (Option Str) := []
  emailPatResult : Option Str := none
  brokerNameSel : Option Str := none
  brokerCompanySel : Option Str := none

/-- The script/tracking markers of `_extract_structured_content`, checked on
the lower-cased text. -/
def NOISE_JS_MARKERS : List Str :=
  ["function(".data, "var ".data, "$(".data, "console.log".data, "gtag(".data,
   "mixpanel".data, "document.ready".data]

/-- The CSS/markup markers of `_extract_structured_content`, checked on the
text as is (`\x7b`/`\x7d` denote the brace characters). -/
def NOISE_CSS_MARKERS : List Str :=
  ["\x7b".data, "\x7d".data, ";".data, "px".data, "margin".data,
   "padding".data, "color:".data, "background:".data, "font-size".data]

/-- The noise filter of `_extract_structured_content` (lines 306-327),
applied to an already-stripped text node: reject on a script/tracking
marker in the lower-cased text, on a CSS token, on length < 20 or a
comment prefix, or on more than 3 parentheses of either kind or more than
2 semicolons; accept otherwise. -/
def noiseKeep (text : Str) : Bool :=
  if NOISE_JS_MARKERS.any (fun m => containsSub m (pyLower text)) then false
  else if NOISE_CSS_MARKERS.any (fun m => containsSub m text) then false
  else if text.length < 20 || pyStartsWith text "//".data ||
          pyStartsWith text "/*".data then false
  else if pyCount text '(' > 3 || pyCount text ')' > 3 || pyCount text ';' > 2 then
    false
  else true

/-- The `clean_texts` loop: strip each node, keep the survivors of
`noiseKeep`. -/
def cleanFilter : List Str → List Str
  | [] => []
  | t :: rest =>
    let text := pyStrip t
    if noiseKeep text then text :: cleanFilter rest else cleanFilter rest

/-- The first content-area loop of `_extract_structured_content`: the first
area whose cleaned texts join to more than 100 characters yields the
`business_description`; an area whose cleaned join is shorter does not stop
the loop. -/
def businessDescription : List (List Str) → Option Str
  | [] => none
  | area :: rest =>
    let clean := cleanFilter area
    if clean ≠ [] then
      let full := joinSpace clean
      if full.length > 100 then some full else businessDescription rest
    else businessDescription rest

/-- The `swedish_sections` table of `_extract_structured_content`, in
declaration order. -/
def SWEDISH_SECTIONS : List (Str × Str) :=
  [("Företaget i korthet".data, "company_brief".data),
   ("Potential".data, "potential".data),
   ("Anledning till försäljning".data, "reason_for_sale".data),
   ("Prisidé".data, "price_idea".data),
   ("Sammanfattning".data, "summary".data),
   ("Beskrivning".data, "description".data),
   ("Verksamhet".data, "business_activity".data),
   ("Marknad".data, "market".data),
   ("Konkurrenssituation".data, "competition".data)]

/-- The candidate section text of the heading loop: the stripped text
elements longer than 20 characters, joined by spaces (it does not depend on
the triggering element). -/
def sectionBase (textElements : List Str) : Str :=
  joinSpace ((textElements.map pyStrip).filter (fun t => t ≠ [] ∧ t.length > 20))

/-- The inner text-element loop for one Swedish heading: on each element
containing the heading, when the xpath parent lookup succeeds, the common
section text (heading occurrences removed, then stripped) is stored if its
length lies strictly between 50 and 2000; otherwise the loop continues. -/
def sectionFindGo (sk : Str) (r : DetailResponse) : List Str → Option Str
  | [] => none
  | text :: rest =>
    if containsSub sk text then
      if r.xpathKeys.any (fun k => k == sk) then
        let base := sectionBase r.textElements
        let sectionText :=
          if containsSub sk base then pyStrip (pyReplace base sk []) else base
        if sectionText ≠ [] ∧ sectionText.length > 50 ∧ sectionText.length < 2000 then
          some sectionText
        else sectionFindGo sk r rest
      else sectionFindGo sk r rest
    else sectionFindGo sk r rest

/-- The heading loop of `_extract_structured_content`: one entry per Swedish
heading found, keyed by its canonical key, in table order. -/
def sectionScan (r : DetailResponse) : List (Str × Str) :=
  SWEDISH_SECTIONS.foldl (fun acc kv =>
    match sectionFindGo kv.1 r r.textElements with
    | some v => acc ++ [(kv.2, v)]
    | none => acc) []

/-- The whole `structured_content` dict built by
`_extract_structured_content`, in insertion order (`business_description`
first when present, then the heading entries). -/
def scDict (r : DetailResponse) : List (Str × Str) :=
  (match businessDescription r.mainContentAreas with
   | some v => [("business_description".data, v)]
   | none => []) ++ sectionScan r

/-- The keys whose sections feed the synthesized full description. -/
def FULL_DESCRIPTION_KEYS : List Str :=
  ["company_brief".data, "description".data, "business_activity".data,
   "business_description".data]

/-- The `full_description_parts` of `_extract_structured_content`: the
section bodies whose key is in `FULL_DESCRIPTION_KEYS`, in insertion
order. -/
def fdParts (sc : List (Str × Str)) : List Str :=
  sc.filterMap (fun kv =>
    if FULL_DESCRIPTION_KEYS.any (fun k => k == kv.1) then some kv.2 else none)

/-- `structured_content` after `_extract_structured_content`: replaced by
the extracted dict when it is non-empty, otherwise left as it was. -/
def detailStructuredContent (r : DetailResponse) (i : Item) :
    Option (List (Str × Str)) :=
  let sc := scDict r
  if sc ≠ [] then some sc else i.structured_content

/-- `full_description` after `_extract_structured_content`: replaced by the
joined parts when the extracted dict and the parts are non-empty. -/
def detailFullDescription (r : DetailResponse) (i : Item) : Option Str :=
  let sc := scDict r
  if sc ≠ [] then
    let parts := fdParts sc
    if parts ≠ [] then some (joinSpace parts) else i.full_description
  else i.full_description

/-- The financial keywords of `_extract_detailed_financials`. -/
def FIN_KEYWORDS : List Str :=
  ["omsättning".data, "resultat".data, "vinst".data, "förlust".data,
   "kostnad".data, "intäkt".data]

/-- The per-section detailed-value loop: the first node markup containing
the marker and longer than 50 characters, stripped. -/
def firstDetail (marker : Str) : List Str → Option Str
  | [] => none
  | d :: rest =>
    if containsSub marker d ∧ d.length > 50 then some (pyStrip d)
    else firstDetail marker rest

/-- The per-section `financial_text` loop: stripped texts that contain a
financial keyword (lower-cased test) and are longer than 20 characters. -/
def sectionFinTexts (texts : List Str) : List Str :=
  texts.filterMap (fun raw =>
    let t := pyStrip raw
    if FIN_KEYWORDS.any (fun kw => containsSub kw (pyLower t)) ∧ t.length > 20 then
      some t
    else none)

/-- The `_extract_detailed_financials` fold over the financial sections:
detailed revenue and profit are overwritten by each later section that finds
one; the supplementary details accumulate. -/
def finSectionsFold (secs : List FinSection) :
    Option Str × Option Str × List Str :=
  secs.foldl (fun acc sec =>
    let dr := match firstDetail "Omsättning".data sec.revenueRaws with
      | some v => some v
      | none => acc.1
    let dp := match firstDetail "Resultat".data sec.profitRaws with
      | some v => some v
      | none => acc.2.1
    (dr, dp, acc.2.2 ++ sectionFinTexts sec.texts)) (none, none, [])

/-- The `.main-content, .content, .listing-content` paragraph loop of
`_extract_detailed_financials`: first texts of the keyword paragraphs,
stripped, kept when truthy and longer than 30 characters once stripped. -/
def finMainTexts (areas : List (List (Option Str))) : List Str :=
  (areas.map (fun area =>
    area.filterMap (fun pt =>
      match pt with
      | some t => if t ≠ [] ∧ (pyStrip t).length > 30 then some (pyStrip t) else none
      | none => none))).flatten

/-- The employee-element loop of `_extract_employee_info`: the first element
text that is truthy and contains "anställd" (lower-cased) and has a digit
run yields `"<first digit run> employees"`. -/
def empScan : List (Option Str) → Option Str
  | [] => none
  | t? :: rest =>
    match t? with
    | some t =>
      if t ≠ [] ∧ containsSub "anställd".data (pyLower t) then
        match runsOf Char.isDigit t with
        | num :: _ => some (num ++ " employees".data)
        | [] => empScan rest
      else empScan rest
    | none => empScan rest

/-- The first truthy selector result (`phone = response.css(sel).get(); if
phone:`); a `some ""` result is falsy and the loop continues. -/
def firstTruthy : List (Option Str) → Option Str
  | [] => none
  | some t :: rest => if t ≠ [] then some t else firstTruthy rest
  | none :: rest => firstTruthy rest

/-- The first pattern with a match in the regex fallback loops (`re.search`
returns a match object, which is always truthy). -/
def firstSome : List (Option Str) → Option Str
  | [] => none
  | some t :: _ => some t
  | none :: rest => firstSome rest

/-- CSS-phone cleanup: drop a `tel:` scheme (every occurrence, as
`str.replace` does), then strip. -/
def cleanPhone (p : Str) : Str :=
  pyStrip (if pyStartsWith p "tel:".data then pyReplace p "tel:".data [] else p)

/-- CSS-email cleanup: drop a `mailto:` scheme, then strip. -/
def cleanEmail (e : Str) : Str :=
  pyStrip (if pyStartsWith e "mailto:".data then pyReplace e "mailto:".data [] else e)

/-- `phone` after `parse_listing_detail`: the CSS selector loop, then the
regex fallback guarded by `if not item.get('phone')`. -/
def detailPhone (r : DetailResponse) (i : Item) : Option Str :=
  let afterCss := match firstTruthy r.phoneSelResults with
    | some p => some (cleanPhone p)
    | none => i.phone
  if truthy afterCss then afterCss
  else
    match firstSome r.phonePatResults with
    | some m => some (pyStrip m)
    | none => afterCss

/-- `email` after `parse_listing_detail`: the CSS selector loop, then the
regex fallback (the regex match is stored unstripped, as in the source). -/
def detailEmail (r : DetailResponse) (i : Item) : Option Str :=
  let afterCss := match firstTruthy r.emailSelResults with
    | some e => some (cleanEmail e)
    | none => i.email
  if truthy afterCss then afterCss
  else
    match r.emailPatResult with
    | some m => some m
    | none => afterCss

/-- `parse_listing_detail` (lines 195-282): the item yielded for the detail
page.  The source mutates `item` field by field; no step reads a field
written by an earlier step of the same run except through the guards modelled
here, so the result is written as one record update. -/
def parse_listing_detail (r : DetailResponse) (i : Item) : Item :=
  let fin := finSectionsFold r.finSections
  let finDetails := fin.2.2 ++ finMainTexts r.finMainContents
  { i with
    structured_content := detailStructuredContent r i
    full_description := detailFullDescription r i
    detailed_revenue := match fin.1 with
      | some v => some v
      | none => i.detailed_revenue
    detailed_profit := match fin.2.1 with
      | some v => some v
      | none => i.detailed_profit
    financial_details := if finDetails ≠ [] then some finDetails else i.financial_details
    employee_count :=
      if truthy i.employee_count then i.employee_count
      else
        match empScan r.employeeTexts with
        | some v => some v
        | none => i.employee_count
    phone := detailPhone r i
    email := detailEmail r i
    broker_name :=
      if truthy i.broker_name then i.broker_name
      else
        match r.brokerNameSel with
        | some b => if b ≠ [] then some (pyStrip b) else i.broker_name
        | none => i.broker_name
    broker_company :=
      if truthy i.broker_company then i.broker_company
      else
        match r.brokerCompanySel with
        | some b => if b ≠ [] then some (pyStrip b) else i.broker_company
        | none => i.broker_company }
/-!
## Concrete fixtures used by the claim theorems
-/

/-- The spider's start URL (`start_urls[0]`). -/
def BASE_URL : Str :=
  "https://www.bolagsplatsen.se/foretag-till-salu/alla/alla".data

/-- A fixed timestamp standing for `datetime.now().isoformat()`. -/
def NOW_TS : Str := "2024-01-01T00:00:00".data

/-- A well-formed catalogue container with a title and a detail link. -/
def C1container : ListingContainer :=
  { titleAttr := some "Fin Butik".data, href := some "/foretag/fin-butik-123".data }

/-- The partial record the listing stage produces from `C1container`. -/
def C1listingItem : Item :=
  match containerParse BASE_URL NOW_TS C1container with
  | .ok it => it
  | .error _ => {}

/-- A plain-language detail-page text of more than 100 characters. -/
def C1longText : Str :=
  "This established business has served loyal customers in the region for more than twenty good years now".data

/-- A detail page whose main content area yields a business description. -/
def C1detailResp : DetailResponse := { mainContentAreas := [[C1longText]] }

/-- A listing-stage-style item with non-empty guarded fields. -/
def C1witnessItem : Item :=
  { title := some "Butik".data, employee_count := some "5 st.".data,
    broker_name := some "Anna".data, broker_company := some "Bolagsmäklarna AB".data }

/-- A detail page on which every selector comes back empty. -/
def C1emptyDetail : DetailResponse := {}

/-- A transformed record with the given title and link and otherwise empty
fields; the deduplication pass only inspects `title` and `link`. -/
def mkListing (t u : Str) : TransformedItem :=
  { title := t, company := [], location := [], price := [], category := [],
    industry := [], link := u, details := [], business_name := [],
    contact_name := [], phone_number := [] }

/-- A catalogue container with no title attribute. -/
def C3container : ListingContainer := { href := some "/foretag/okand-789".data }

/-- A catalogue page holding only the titleless container. -/
def C3resp : PageResponse :=
  { url := BASE_URL, containers := [C3container], paginationLinks := [] }

/-- The record the listing stage emits for the titleless container. -/
def C3emitted : Item :=
  match containerParse BASE_URL NOW_TS C3container with
  | .ok it => it
  | .error _ => {}

/-- A container whose JSON-LD block decodes to the number 5: a malformed
shape for the expected keys. -/
def C4container : ListingContainer :=
  { titleAttr := some "Bolag".data, jsonLd := some (.ok (Json.num 5)) }

/-- A catalogue page holding only `C4container`. -/
def C4resp : PageResponse :=
  { url := BASE_URL, containers := [C4container], paginationLinks := [] }

/-- A container whose JSON-LD fails to decode. -/
def C4decodeErr : ListingContainer :=
  { titleAttr := some "Bolag".data, jsonLd := some (.error ()) }

/-- A container with an object-shaped JSON-LD block. -/
def C4okObj : ListingContainer :=
  { titleAttr := some "Bolag".data,
    jsonLd := some (.ok (Json.obj
      [("description".data, Json.str "Bra bolag till salu i Stockholm".data)])) }

/-- A 105-character plain-language text behind a `//` comment prefix. -/
def C7rejected : Str :=
  "// This established business has served loyal customers in the region for more than twenty good years now".data

/-- The same text without the comment prefix (102 characters). -/
def C7accepted : Str :=
  "This established business has served loyal customers in the region for more than twenty good years now".data

/-- A current URL carrying `page=3`. -/
def C8url : Str :=
  "https://www.bolagsplatsen.se/foretag-till-salu/alla/alla?page=3".data

/-- Pagination links pointing at page 7. -/
def C8links : List Str := ["/foretag-till-salu/alla/alla?page=7".data]

/-- A well-formed container for the C9 witness. -/
def C9container : ListingContainer := { titleAttr := some "Kafé i centrum".data }

/-- A scraped item with an extracted phone. -/
def C10phoneItem : Item := { title := some "Butik".data, phone := some "070-123 45 67".data }

/-- The Boolean cross-containment check of the translation table: no entry's
output contains another entry's input as a substring. -/
def noCrossContainment (table : List (Str × Str)) : Bool :=
  table.all (fun p1 => table.all (fun p2 => p1 == p2 || !(containsSub p2.1 p1.2)))
/-!
## Claim theorems
-/

/-- C5: `translate_text` applies the `TRANSLATIONS` entries in
table-declaration order over the lower-cased input, and the order is
observable: on "olönsamt" (whose trigger contains the earlier entry
"lönsamt" as a substring) declaration order yields "Oprofitable" while
reverse order yields "Unprofitable".  The necessary condition of the claim's
stability clause — re-application can only be stable if no entry's output
contains another entry's input — holds because the table in fact satisfies
that containment-freeness outright, which the last conjunct establishes. -/
theorem C5_translation_order :
    translate_text "olönsamt".data = "Oprofitable".data ∧
    translateWith TRANSLATIONS.reverse "olönsamt".data = "Unprofitable".data ∧
    translate_text "olönsamt".data ≠ translateWith TRANSLATIONS.reverse "olönsamt".data ∧
    noCrossContainment TRANSLATIONS = true := by
  refine ⟨by decide, by decide, by decide, by decide⟩

/-- C6: `convert_currency` returns the input unchanged when it contains no
digit/whitespace run or when the joined, space-stripped run fails to parse;
when the run parses to `n` it renders `'$'` followed by the comma-grouped
`round(n * 0.095)` (binary64 multiplication, ties-to-even rounding, modelled
exactly by `sekRound`); `convert_currency "100000 SEK"` is the fixed string
`"$9,500"`. -/
theorem C6_convert_currency :
    (∀ s, runsOf (fun c => c.isDigit || pyWhitespace c) s = [] → convert_currency s = s) ∧
    (∀ s, pyInt (pyReplace (runsOf (fun c => c.isDigit || pyWhitespace c) s).flatten
        [' '] []) = none → convert_currency s = s) ∧
    (∀ s n, pyInt (pyReplace (runsOf (fun c => c.isDigit || pyWhitespace c) s).flatten
        [' '] []) = some n → convert_currency s = '$' :: commaGroup (sekRound n)) ∧
    convert_currency "100000 SEK".data = "$9,500".data := by
  refine ⟨?_, ?_, ?_, by decide⟩
  · intro s h
    unfold convert_currency
    by_cases hs : s = []
    · simp [hs]
    · simp [hs, h]
  · intro s h
    unfold convert_currency
    by_cases hs : s = []
    · simp [hs]
    · by_cases hr : runsOf (fun c => c.isDigit || pyWhitespace c) s = []
      · simp [hs, hr]
      · simp [hs, hr, h]
  · intro s n h
    unfold convert_currency
    by_cases hs : s = []
    · subst hs
      simp only [runsOf] at h
      simp [runsOfGo, pyReplace, pyReplaceGo, pyInt, pyStrip] at h
    · by_cases hr : runsOf (fun c => c.isDigit || pyWhitespace c) s = []
      · rw [hr] at h
        simp [pyReplace, pyReplaceGo, pyInt, pyStrip] at h
      · simp [hs, hr, h]

/-- C6 witness: the three universally quantified clauses of
`C6_convert_currency` applied at concrete inputs. -/
theorem C6_witness :
    convert_currency "abc".data = "abc".data ∧
    convert_currency "abc def".data = "abc def".data ∧
    convert_currency "100000 SEK".data = '$' :: commaGroup (sekRound 100000) := by
  refine ⟨C6_convert_currency.1 "abc".data (by decide),
          C6_convert_currency.2.1 "abc def".data (by decide),
          C6_convert_currency.2.2.1 "100000 SEK".data 100000 (by decide)⟩

/-- C9: every record the listing stage emits carries the constant category
"Företag till salu" and the constant location "Sverige"; in particular any
two emitted records agree on both fields, so a category or location filter
matches all records or none. -/
theorem C9_constant_category_location :
    (∀ u now c r, containerParse u now c = Except.ok r →
       r.category = some CATEGORY_DEFAULT ∧ r.location = some LOCATION_DEFAULT) ∧
    (∀ u1 n1 c1 r1 u2 n2 c2 r2, containerParse u1 n1 c1 = Except.ok r1 →
       containerParse u2 n2 c2 = Except.ok r2 →
       r1.category = r2.category ∧ r1.location = r2.location) := by
  have key : ∀ u now c r, containerParse u now c = Except.ok r →
      r.category = some CATEGORY_DEFAULT ∧ r.location = some LOCATION_DEFAULT := by
    intro u now c r h
    unfold containerParse at h
    cases hjv : runJsonLd c.jsonLd with
    | error e => rw [hjv] at h; exact absurd h (by simp)
    | ok jv =>
      rw [hjv] at h
      simp only [Except.ok.injEq] at h
      subst h
      exact ⟨rfl, rfl⟩
  refine ⟨key, ?_⟩
  intro u1 n1 c1 r1 u2 n2 c2 r2 h1 h2
  obtain ⟨hc1, hl1⟩ := key u1 n1 c1 r1 h1
  obtain ⟨hc2, hl2⟩ := key u2 n2 c2 r2 h2
  exact ⟨hc1.trans hc2.symm, hl1.trans hl2.symm⟩

/-- C9 witness: `C9_constant_category_location` at a concrete container. -/
theorem C9_witness :
    (match containerParse BASE_URL NOW_TS C9container with
     | .ok r => r.category = some CATEGORY_DEFAULT ∧ r.location = some LOCATION_DEFAULT
     | .error _ => False) := by
  have h : containerParse BASE_URL NOW_TS C9container =
      Except.ok { title := some "Kafé i centrum".data,
                  description := some "Kafé i centrum".data,
                  full_description := some "Kafé i centrum".data,
                  structured_content :=
                    some [("company_brief".data, "Kafé i centrum".data),
                          ("business_activity".data, [])],
                  category := some CATEGORY_DEFAULT,
                  location := some LOCATION_DEFAULT,
                  listing_type := some "regular".data,
                  scraped_at := some NOW_TS } := by decide
  rw [h]
  exact C9_constant_category_location.1 BASE_URL NOW_TS C9container _ h

/-- C10: `phone_number` is the extracted phone when the `phone` key is
present and the literal "Contact via website" when it is absent; on an item
with no extracted data every other output field is empty and every details
group is omitted, so `phone_number` is the only field with a non-empty
default. -/
theorem C10_phone_number_default :
    (∀ item : Item, item.phone = none →
       (transform_item item).phone_number = "Contact via website".data) ∧
    (∀ (item : Item) p, item.phone = some p → (transform_item item).phone_number = p) ∧
    transform_item {} =
      { title := [], company := [], location := [], price := [], category := [],
        industry := [], link := [], details := [], business_name := [],
        contact_name := [], phone_number := "Contact via website".data } := by
  refine ⟨?_, ?_, by decide⟩
  · intro item h
    simp [transform_item, h]
  · intro item p h
    simp [transform_item, h]

/-- C10 witness: `C10_phone_number_default` at concrete items. -/
theorem C10_witness :
    (transform_item {}).phone_number = "Contact via website".data ∧
    (transform_item C10phoneItem).phone_number = "070-123 45 67".data := by
  exact ⟨C10_phone_number_default.1 {} rfl,
         C10_phone_number_default.2.1 C10phoneItem "070-123 45 67".data rfl⟩
/-- Members of `dedupGo` output avoid the seen sets. -/
theorem dedupGo_mem (l : List TransformedItem) :
    ∀ (sT sL : List Str) (r : TransformedItem), r ∈ dedupGo sT sL l →
      r.title ∉ sT ∧ r.link ∉ sL := by
  induction l with
  | nil => intro sT sL r h; simp [dedupGo] at h
  | cons a rest ih =>
    intro sT sL r h
    unfold dedupGo at h
    by_cases hc : a.title ∉ sT ∧ a.link ∉ sL
    · rw [if_pos hc] at h
      rcases List.mem_cons.mp h with rfl | hmem
      · exact hc
      · have := ih _ _ _ hmem
        exact ⟨fun hx => this.1 (List.mem_cons_of_mem _ hx),
               fun hx => this.2 (List.mem_cons_of_mem _ hx)⟩
    · rw [if_neg hc] at h
      exact ih _ _ _ h

/-- `dedupGo` output is a sublist of its input. -/
theorem dedupGo_sublist (l : List TransformedItem) :
    ∀ sT sL, (dedupGo sT sL l).Sublist l := by
  induction l with
  | nil => intro sT sL; simp [dedupGo]
  | cons a rest ih =>
    intro sT sL
    unfold dedupGo
    by_cases hc : a.title ∉ sT ∧ a.link ∉ sL
    · rw [if_pos hc]; exact (ih _ _).cons₂ a
    · rw [if_neg hc]; exact (ih _ _).cons a

/-- `dedupGo` output has pairwise distinct titles and pairwise distinct
links. -/
theorem dedupGo_pairwise (l : List TransformedItem) :
    ∀ sT sL, (dedupGo sT sL l).Pairwise
      (fun a b => a.title ≠ b.title ∧ a.link ≠ b.link) := by
  induction l with
  | nil => intro sT sL; simp [dedupGo]
  | cons a rest ih =>
    intro sT sL
    unfold dedupGo
    by_cases hc : a.title ∉ sT ∧ a.link ∉ sL
    · rw [if_pos hc]
      refine List.pairwise_cons.mpr ⟨?_, ih _ _⟩
      intro b hb
      have := dedupGo_mem rest _ _ b hb
      exact ⟨fun hx => this.1 (by rw [← hx]; exact List.mem_cons_self _ _),
             fun hx => this.2 (by rw [← hx]; exact List.mem_cons_self _ _)⟩
    · rw [if_neg hc]; exact ih _ _

/-- C2 (amended): a record is kept exactly when neither its title nor its
link matches a previously kept record; consequently two records with the
same title and different links collapse to the first, the output is a
sublist of the input (original order), the output's titles and links are
pairwise distinct, and the first input record is always kept. -/
theorem C2_dedup_properties :
    (∀ t u1 u2, u1 ≠ u2 → dedup [mkListing t u1, mkListing t u2] = [mkListing t u1]) ∧
    (∀ l, (dedup l).Sublist l) ∧
    (∀ l, (dedup l).Pairwise (fun a b => a.title ≠ b.title ∧ a.link ≠ b.link)) ∧
    (∀ r l, dedup (r :: l) = r :: dedupGo [r.title] [r.link] l) := by
  refine ⟨?_, fun l => dedupGo_sublist l [] [], fun l => dedupGo_pairwise l [] [], ?_⟩
  · intro t u1 u2 hne
    simp [dedup, dedupGo, mkListing]
  · intro r l
    simp [dedup, dedupGo]

/-- C2 witness: `C2_dedup_properties` at concrete records. -/
theorem C2_witness :
    dedup [mkListing "a".data "u1".data, mkListing "a".data "u2".data] =
      [mkListing "a".data "u1".data] ∧
    (dedup [mkListing "a".data "u1".data, mkListing "b".data "u1".data]).Sublist
      [mkListing "a".data "u1".data, mkListing "b".data "u1".data] := by
  exact ⟨C2_dedup_properties.1 "a".data "u1".data "u2".data (by decide),
         C2_dedup_properties.2.1 _⟩

/-- C2 counterexample: with input [(a,u1), (b,u1), (b,u2)] the record
(b,u1) is the first one seen under title b, yet it is dropped (its link
matches the kept (a,u1)), and (b,u2) is kept instead — refuting "the first
record seen under a given title or a given url is kept". -/
theorem C2_counterexample :
    dedup [mkListing "a".data "u1".data, mkListing "b".data "u1".data,
           mkListing "b".data "u2".data] =
      [mkListing "a".data "u1".data, mkListing "b".data "u2".data] ∧
    mkListing "b".data "u1".data ∉
      dedup [mkListing "a".data "u1".data, mkListing "b".data "u1".data,
             mkListing "b".data "u2".data] := by
  refine ⟨by decide, by decide⟩

/-- C7 (amended): the noise filter rejects a text containing a
script/tracking marker (lower-cased test), a CSS token, a text shorter than
20 characters, one with more than 3 parentheses of either kind or more than
2 semicolons, and also one starting with a comment prefix "//" or "/*"; it
accepts every text of at least 100 characters with none of those markers
that does not start with a comment prefix. -/
theorem C7_noise_filter :
    (∀ t, (NOISE_JS_MARKERS.any fun m => containsSub m (pyLower t)) = true →
       noiseKeep t = false) ∧
    (∀ t, (NOISE_CSS_MARKERS.any fun m => containsSub m t) = true →
       noiseKeep t = false) ∧
    (∀ t, t.length < 20 → noiseKeep t = false) ∧
    (∀ t, pyCount t '(' > 3 ∨ pyCount t ')' > 3 ∨ pyCount t ';' > 2 →
       noiseKeep t = false) ∧
    (∀ t, pyStartsWith t "//".data = true ∨ pyStartsWith t "/*".data = true →
       noiseKeep t = false) ∧
    (∀ t, t.length ≥ 100 →
       (NOISE_JS_MARKERS.any fun m => containsSub m (pyLower t)) = false →
       (NOISE_CSS_MARKERS.any fun m => containsSub m t) = false →
       pyStartsWith t "//".data = false → pyStartsWith t "/*".data = false →
       pyCount t '(' ≤ 3 → pyCount t ')' ≤ 3 → pyCount t ';' ≤ 2 →
       noiseKeep t = true) := by
  refine ⟨?_, ?_, ?_, ?_, ?_, ?_⟩
  · intro t h; simp [noiseKeep, h]
  · intro t h; unfold noiseKeep; split
    · rfl
    · simp [h]
  · intro t h; unfold noiseKeep; split
    · rfl
    · split
      · rfl
      · simp [h]
  · intro t h; unfold noiseKeep; split
    · rfl
    · split
      · rfl
      · split
        · rfl
        · rcases h with h | h | h <;> simp [h]
  · intro t h; unfold noiseKeep; split
    · rfl
    · split
      · rfl
      · rcases h with h | h <;> simp [h]
  · intro t hlen hjs hcss hsl hst hp1 hp2 hsemi
    have h20 : ¬ t.length < 20 := by omega
    simp [noiseKeep, hjs, hcss, hsl, hst, h20, Nat.not_lt.mpr hp1, Nat.not_lt.mpr hp2,
          Nat.not_lt.mpr hsemi]

/-- C7 witness: `C7_noise_filter` at concrete texts — the 102-character
plain text is accepted, a short text is rejected. -/
theorem C7_witness :
    noiseKeep C7accepted = true ∧ noiseKeep "kort".data = false := by
  exact ⟨C7_noise_filter.2.2.2.2.2 C7accepted (by decide) (by decide) (by decide)
           (by decide) (by decide) (by decide) (by decide) (by decide),
         C7_noise_filter.2.2.1 "kort".data (by decide)⟩

/-- C7 counterexample: a 105-character plain-language text with none of the
claim's markers (no script/tracking marker, no CSS token, no parenthesis or
semicolon excess) is nevertheless rejected, because it begins with the
comment prefix "//" — a rejection rule the claim's acceptance clause
omits. -/
theorem C7_counterexample :
    noiseKeep C7rejected = false ∧
    cleanFilter [C7rejected] = [] ∧
    C7rejected.length ≥ 100 ∧
    (NOISE_JS_MARKERS.any fun m => containsSub m (pyLower C7rejected)) = false ∧
    (NOISE_CSS_MARKERS.any fun m => containsSub m C7rejected) = false ∧
    pyCount C7rejected '(' ≤ 3 ∧ pyCount C7rejected ')' ≤ 3 ∧
    pyCount C7rejected ';' ≤ 2 := by
  refine ⟨by decide, by decide, by decide, by decide, by decide, by decide, by decide,
          by decide⟩

/-- C8 (amended): with no pagination links the crawl stops; a request is
only ever issued for a page number at most 10; when the current URL has no
page parameter the next request is page 2; when it has page `n` the next
request is page `n+1` (bounded by 10).  The next page number is therefore
derived from the current URL, not parsed from the pagination links, which
only signal existence. -/
theorem C8_pagination :
    (∀ url, paginationStep url [] = Except.ok none) ∧
    (∀ url links k, paginationStep url links = Except.ok (some k) →
       k ≤ 10 ∧ links ≠ []) ∧
    (∀ url links, links ≠ [] → containsSub "page=".data url = false →
       paginationStep url links = Except.ok (some 2)) ∧
    (∀ url links n, links ≠ [] → containsSub "page=".data url = true →
       findPageNum url = some n →
       paginationStep url links = Except.ok (if n + 1 ≤ 10 then some (n + 1) else none)) := by
  refine ⟨?_, ?_, ?_, ?_⟩
  · intro url; simp [paginationStep]
  · intro url links k h
    unfold paginationStep at h
    by_cases hl : links = []
    · simp [hl] at h
    · rw [if_pos (by exact hl)] at h
      refine ⟨?_, hl⟩
      by_cases hc : containsSub "page=".data url = true
      · rw [if_pos hc] at h
        cases hf : findPageNum url with
        | none => rw [hf] at h; simp at h
        | some n =>
          rw [hf] at h
          simp only at h
          split at h
          · simp at h; omega
          · simp at h
      · rw [if_neg hc] at h
        simp at h
        omega
  · intro url links hl hc
    unfold paginationStep
    rw [if_pos hl, if_neg (by simp [hc])]
    rfl
  · intro url links n hl hc hf
    unfold paginationStep
    rw [if_pos hl, if_pos hc, hf]

/-- C8 witness: `C8_pagination` at concrete inputs. -/
theorem C8_witness :
    paginationStep BASE_URL [] = Except.ok none ∧
    paginationStep BASE_URL C8links = Except.ok (some 2) ∧
    paginationStep C8url C8links = Except.ok (if 3 + 1 ≤ 10 then some (3 + 1) else none) := by
  exact ⟨C8_pagination.1 BASE_URL,
         C8_pagination.2.2.1 BASE_URL C8links (by decide) (by decide),
         C8_pagination.2.2.2 C8url C8links 3 (by decide) (by decide) (by decide)⟩

/-- C8 counterexample: with the current URL at page 3 and a pagination link
pointing at page 7, the spider requests page 4 (current URL page + 1) while
the claim's "next page number parsed from pagination links" reading would
give 7. -/
theorem C8_counterexample :
    paginationStep C8url C8links = Except.ok (some 4) ∧
    specNextFromLinks C8links = some 7 ∧
    (4 : Nat) ≠ 7 := by
  refine ⟨by decide, by decide, by decide⟩
/-- C1 (amended): the detail stage leaves every field the listing stage can
set unchanged — title, url, description, price, product id, category,
location, revenue, profit status, broker photo, company logo, listing type,
scrape timestamp unconditionally, and employee count, broker name and broker
company whenever they hold a non-empty value — except the additive detailed
financial fields and except `structured_content` and `full_description`,
which the detail stage replaces whenever it extracts structured sections
(see the counterexample). -/
theorem C1_detail_preservation (r : DetailResponse) (i : Item) :
    (parse_listing_detail r i).title = i.title ∧
    (parse_listing_detail r i).url = i.url ∧
    (parse_listing_detail r i).description = i.description ∧
    (parse_listing_detail r i).price = i.price ∧
    (parse_listing_detail r i).product_id = i.product_id ∧
    (parse_listing_detail r i).category = i.category ∧
    (parse_listing_detail r i).location = i.location ∧
    (parse_listing_detail r i).revenue = i.revenue ∧
    (parse_listing_detail r i).profit_status = i.profit_status ∧
    (parse_listing_detail r i).broker_photo = i.broker_photo ∧
    (parse_listing_detail r i).company_logo = i.company_logo ∧
    (parse_listing_detail r i).listing_type = i.listing_type ∧
    (parse_listing_detail r i).scraped_at = i.scraped_at ∧
    (truthy i.employee_count = true →
      (parse_listing_detail r i).employee_count = i.employee_count) ∧
    (truthy i.broker_name = true →
      (parse_listing_detail r i).broker_name = i.broker_name) ∧
    (truthy i.broker_company = true →
      (parse_listing_detail r i).broker_company = i.broker_company) := by
  refine ⟨rfl, rfl, rfl, rfl, rfl, rfl, rfl, rfl, rfl, rfl, rfl, rfl, rfl, ?_, ?_, ?_⟩
  · intro h; simp [parse_listing_detail, h]
  · intro h; simp [parse_listing_detail, h]
  · intro h; simp [parse_listing_detail, h]

/-- C1 witness: `C1_detail_preservation` at a concrete detail response and a
concrete item with non-empty guarded fields. -/
theorem C1_witness :
    truthy C1witnessItem.employee_count = true ∧
    (parse_listing_detail C1emptyDetail C1witnessItem).employee_count =
      C1witnessItem.employee_count ∧
    (parse_listing_detail C1emptyDetail C1witnessItem).broker_name =
      C1witnessItem.broker_name ∧
    (parse_listing_detail C1emptyDetail C1witnessItem).title = C1witnessItem.title := by
  have h := C1_detail_preservation C1emptyDetail C1witnessItem
  exact ⟨by decide, h.2.2.2.2.2.2.2.2.2.2.2.2.2.1 (by decide),
         h.2.2.2.2.2.2.2.2.2.2.2.2.2.2.1 (by decide), h.1⟩

/-- C1 counterexample: the listing stage always sets a non-empty
`structured_content` placeholder and a `full_description`; on a detail page
whose content area yields a business description, `parse_listing_detail`
replaces both — refuting "the structured_content and full_description values
set at the listing stage are never replaced by the detail stage". -/
theorem C1_counterexample :
    containerParse BASE_URL NOW_TS C1container = Except.ok C1listingItem ∧
    C1listingItem.structured_content =
      some [("company_brief".data, "Fin Butik".data),
            ("business_activity".data, [])] ∧
    C1listingItem.full_description = some "Fin Butik".data ∧
    (parse_listing_detail C1detailResp C1listingItem).structured_content =
      some [("business_description".data, C1longText)] ∧
    (parse_listing_detail C1detailResp C1listingItem).full_description =
      some C1longText ∧
    (parse_listing_detail C1detailResp C1listingItem).structured_content ≠
      C1listingItem.structured_content ∧
    (parse_listing_detail C1detailResp C1listingItem).full_description ≠
      C1listingItem.full_description := by
  refine ⟨by decide, by decide, by decide, by decide, by decide, by decide, by decide⟩

/-- Fuel step: one more unit of fuel does not change `pyReplaceGo` once the
fuel covers the string length. -/
theorem pyReplaceGo_fuel_succ (pat rep : Str) :
    ∀ (fuel : Nat) (s : Str), s.length ≤ fuel →
      pyReplaceGo fuel s pat rep = pyReplaceGo (fuel + 1) s pat rep := by
  intro fuel
  induction fuel with
  | zero =>
    intro s hs
    have : s = [] := List.eq_nil_of_length_eq_zero (Nat.le_zero.mp hs)
    subst this
    rfl
  | succ f ih =>
    intro s hs
    match s with
    | [] => rfl
    | c :: rest =>
      show pyReplaceGo (f + 1) (c :: rest) pat rep =
        pyReplaceGo (f + 1 + 1) (c :: rest) pat rep
      unfold pyReplaceGo
      by_cases hcond : pat ≠ [] ∧ pat.isPrefixOf (c :: rest)
      · rw [if_pos hcond, if_pos hcond]
        have hplen : 1 ≤ pat.length := by
          cases pat with
          | nil => exact absurd rfl hcond.1
          | cons p ps => simp
        have hdrop : ((c :: rest).drop pat.length).length ≤ f := by
          rw [List.length_drop]
          simp only [List.length_cons] at hs ⊢
          omega
        rw [ih _ hdrop]
      · rw [if_neg hcond, if_neg hcond]
        have hrest : rest.length ≤ f := by
          simp only [List.length_cons] at hs
          omega
        rw [ih _ hrest]

/-- Fuel irrelevance: any surplus fuel computes the same result. -/
theorem pyReplaceGo_fuel_add (pat rep : Str) (k : Nat) :
    ∀ (fuel : Nat) (s : Str), s.length ≤ fuel →
      pyReplaceGo fuel s pat rep = pyReplaceGo (fuel + k) s pat rep := by
  induction k with
  | zero => intro fuel s _; rfl
  | succ k ih =>
    intro fuel s hs
    have harg : fuel + k + 1 = fuel + (k + 1) := by omega
    rw [ih fuel s hs,
        pyReplaceGo_fuel_succ pat rep (fuel + k) s (le_trans hs (Nat.le_add_right _ _)),
        harg]

/-- One evaluation step of `pyReplaceGo` when the pattern is a prefix. -/
theorem pyReplaceGo_cons_pos (fuel : Nat) (c : Char) (rest pat rep : Str)
    (h : pat ≠ [] ∧ pat.isPrefixOf (c :: rest)) :
    pyReplaceGo (fuel + 1) (c :: rest) pat rep =
      rep ++ pyReplaceGo fuel ((c :: rest).drop pat.length) pat rep := by
  conv_lhs => unfold pyReplaceGo
  rw [if_pos h]

/-- One evaluation step of `pyReplaceGo` when the pattern is not a prefix. -/
theorem pyReplaceGo_cons_neg (fuel : Nat) (c : Char) (rest pat rep : Str)
    (h : ¬ (pat ≠ [] ∧ pat.isPrefixOf (c :: rest))) :
    pyReplaceGo (fuel + 1) (c :: rest) pat rep =
      c :: pyReplaceGo fuel rest pat rep := by
  conv_lhs => unfold pyReplaceGo
  rw [if_neg h]

/-- Replacing a pattern that occurs as a prefix: the prefix is consumed and
replaced, and replacement continues on the remainder. -/
theorem pyReplace_head_pat (pat rep t : Str) (hp : pat ≠ []) :
    pyReplace (pat ++ t) pat rep = rep ++ pyReplace t pat rep := by
  unfold pyReplace
  cases pat with
  | nil => exact absurd rfl hp
  | cons p ps =>
    have hpre : (p :: ps).isPrefixOf ((p :: ps) ++ t) = true :=
      List.isPrefixOf_iff_prefix.mpr (List.prefix_append _ _)
    have hcons : (p :: ps) ++ t = p :: (ps ++ t) := rfl
    rw [hcons] at hpre ⊢
    rw [show (p :: (ps ++ t)).length = (ps ++ t).length + 1 from rfl,
        pyReplaceGo_cons_pos ((ps ++ t).length) p (ps ++ t) (p :: ps) rep
          ⟨by simp, hpre⟩]
    congr 1
    have hdrop : (p :: (ps ++ t)).drop (p :: ps).length = t := by
      show ((p :: ps) ++ t).drop (p :: ps).length = t
      exact List.drop_left _ _
    rw [hdrop]
    have hlen : (ps ++ t).length = t.length + ps.length := by
      simp [List.length_append]; omega
    rw [hlen]
    exact (pyReplaceGo_fuel_add (p :: ps) rep ps.length t.length t le_rfl).symm

/-- Replacing a pattern that does not occur leaves the string unchanged. -/
theorem pyReplace_of_not_contains (pat rep : Str) :
    ∀ s, containsSub pat s = false → pyReplace s pat rep = s := by
  intro s
  induction s with
  | nil => intro _; rfl
  | cons c rest ih =>
    intro h
    unfold containsSub at h
    rw [Bool.or_eq_false_iff] at h
    unfold pyReplace
    rw [show (c :: rest).length = rest.length + 1 from rfl,
        pyReplaceGo_cons_neg rest.length c rest pat rep (by simp [h.1])]
    congr 1
    exact ih h.2

/-- C3 (amended): a container without a title attribute is not skipped: the
record is still emitted (when the JSON-LD step raises nothing), just without
a title field; when a title of the form "Läs mer om " ++ t is present (the
boilerplate prefix, with no further occurrence inside t), the emitted title
is t stripped of surrounding whitespace. -/
theorem C3_title_handling :
    (∀ u now c, c.jsonLd = none → ∃ r, containerParse u now c = Except.ok r) ∧
    (∀ u now c r, containerParse u now c = Except.ok r → c.titleAttr = none →
       r.title = none) ∧
    (∀ u now c r t, containerParse u now c = Except.ok r →
       c.titleAttr = some ("Läs mer om ".data ++ t) →
       containsSub "Läs mer om ".data t = false →
       r.title = some (pyStrip t)) := by
  refine ⟨?_, ?_, ?_⟩
  · intro u now c hj
    unfold containerParse
    rw [hj]
    exact ⟨_, rfl⟩
  · intro u now c r h ht
    unfold containerParse at h
    cases hjv : runJsonLd c.jsonLd with
    | error e => rw [hjv] at h; simp at h
    | ok jv =>
      rw [hjv] at h
      simp only [Except.ok.injEq] at h
      subst h
      simp [ht]
  · intro u now c r t h ht hnc
    unfold containerParse at h
    cases hjv : runJsonLd c.jsonLd with
    | error e => rw [hjv] at h; simp at h
    | ok jv =>
      rw [hjv] at h
      simp only [Except.ok.injEq] at h
      subst h
      simp only [ht]
      rw [if_pos (by simp)]
      rw [pyReplace_head_pat _ _ _ (by decide), pyReplace_of_not_contains _ _ _ hnc]
      rfl
/-- C3 witness: `C3_title_handling` at the concrete titleless container —
the record is emitted and carries no title. -/
theorem C3_witness :
    (∃ r, containerParse BASE_URL NOW_TS C3container = Except.ok r) ∧
    containerParse BASE_URL NOW_TS C3container = Except.ok C3emitted ∧
    C3emitted.title = none := by
  have h : containerParse BASE_URL NOW_TS C3container = Except.ok C3emitted := by decide
  exact ⟨C3_title_handling.1 BASE_URL NOW_TS C3container rfl, h,
         C3_title_handling.2.1 BASE_URL NOW_TS C3container C3emitted h rfl⟩

/-- C3 counterexample: a catalogue page with a single titleless container
yields one record (with no title field) and no error — refuting "no record
is emitted for it". -/
theorem C3_counterexample :
    (parsePage C3resp NOW_TS).items.length = 1 ∧
    (parsePage C3resp NOW_TS).err = none ∧
    (parsePage C3resp NOW_TS).items.map Item.title = [none] := by
  refine ⟨by decide, by decide, by decide⟩

/-- A key found by `any` is found by `lookup`. -/
theorem lookup_of_anyKey {fs : List (Str × Json)} {k : Str}
    (h : (fs.any fun kv => kv.1 == k) = true) : ∃ v, fs.lookup k = some v := by
  induction fs with
  | nil => simp at h
  | cons kv rest ih =>
    rw [List.any_cons, Bool.or_eq_true] at h
    by_cases hk : (k == kv.1) = true
    · exact ⟨kv.2, by simp [List.lookup, hk]⟩
    · rcases h with h | h
      · have : kv.1 = k := by simpa using h
        exact absurd (by simp [this]) hk
      · obtain ⟨v, hv⟩ := ih h
        exact ⟨v, by simp [List.lookup, hk, hv]⟩

/-- The price step of the JSON-LD block raises nothing on an object whose
`offers` entry is absent or is an object whose `priceSpecification` entry is
absent or is an object. -/
theorem jsonPhasePrice_safe (fs : List (Str × Json)) (vals : JsonVals)
    (hshape : fs.lookup "offers".data = none ∨
      ∃ os, fs.lookup "offers".data = some (Json.obj os) ∧
        (os.lookup "priceSpecification".data = none ∨
         ∃ ps, os.lookup "priceSpecification".data = some (Json.obj ps))) :
    (jsonPhasePrice (Json.obj fs) vals).2 = none := by
  unfold jsonPhasePrice
  simp only [pyIn]
  cases hb : (fs.any fun kv => kv.1 == "offers".data) with
  | false => rfl
  | true =>
    obtain ⟨v, hv⟩ := lookup_of_anyKey hb
    rcases hshape with hnone | ⟨os, hos, hps⟩
    · rw [hv] at hnone; exact absurd hnone (by simp)
    · rw [hv] at hos
      obtain rfl : v = Json.obj os := by injection hos
      simp only [pyGet, hv]
      cases hb2 : (os.any fun kv => kv.1 == "priceSpecification".data) with
      | false => simp [pyIn, hb2]
      | true =>
        obtain ⟨v2, hv2⟩ := lookup_of_anyKey hb2
        rcases hps with hnone2 | ⟨ps, hps2⟩
        · rw [hv2] at hnone2; exact absurd hnone2 (by simp)
        · rw [hv2] at hps2
          obtain rfl : v2 = Json.obj ps := by injection hps2
          simp only [pyIn, hb2, pyGet, hv2]
          cases hb3 : (ps.any fun kv => kv.1 == "price".data) with
          | true =>
            obtain ⟨v3, hv3⟩ := lookup_of_anyKey hb3
            simp [pyGet, hv3]
          | false =>
            cases hb4 : (ps.any fun kv => kv.1 == "minPrice".data) with
            | false => simp
            | true =>
              cases hb5 : (ps.any fun kv => kv.1 == "maxPrice".data) with
              | false => simp [hb4]
              | true =>
                obtain ⟨mn, hmn⟩ := lookup_of_anyKey hb4
                obtain ⟨mx, hmx⟩ := lookup_of_anyKey hb5
                simp [hb4, hb5, pyGet, hmn, hmx]

/-- The product-id and price steps raise nothing on a safely shaped
object. -/
theorem jsonPhaseProductId_safe (fs : List (Str × Json)) (vals : JsonVals)
    (hshape : fs.lookup "offers".data = none ∨
      ∃ os, fs.lookup "offers".data = some (Json.obj os) ∧
        (os.lookup "priceSpecification".data = none ∨
         ∃ ps, os.lookup "priceSpecification".data = some (Json.obj ps))) :
    (jsonPhaseProductId (Json.obj fs) vals).2 = none := by
  unfold jsonPhaseProductId
  simp only [pyIn]
  cases hb : (fs.any fun kv => kv.1 == "productid".data) with
  | false => exact jsonPhasePrice_safe fs vals hshape
  | true =>
    obtain ⟨v, hv⟩ := lookup_of_anyKey hb
    simp only [pyGet, hv]
    exact jsonPhasePrice_safe fs _ hshape

/-- The whole JSON-LD statement sequence raises nothing on a safely shaped
object. -/
theorem jsonPhase_safe (fs : List (Str × Json))
    (hshape : fs.lookup "offers".data = none ∨
      ∃ os, fs.lookup "offers".data = some (Json.obj os) ∧
        (os.lookup "priceSpecification".data = none ∨
         ∃ ps, os.lookup "priceSpecification".data = some (Json.obj ps))) :
    (jsonPhase (Json.obj fs)).2 = none := by
  unfold jsonPhase
  simp only [pyIn]
  cases hb : (fs.any fun kv => kv.1 == "description".data) with
  | false => exact jsonPhaseProductId_safe fs _ hshape
  | true =>
    obtain ⟨v, hv⟩ := lookup_of_anyKey hb
    simp only [pyGet, hv]
    exact jsonPhaseProductId_safe fs _ hshape

/-- C4 (amended): a JSON-decode failure and the `KeyError`-free traversal of
a safely shaped object degrade gracefully — the record is still emitted.
The claim's stronger statement fails: a decoded value whose shape mistypes
the expected traversal raises an uncaught `TypeError` and the record is not
emitted (see the counterexample). -/
theorem C4_malformed_jsonld :
    (∀ u now c, c.jsonLd = some (Except.error ()) →
       ∃ r, containerParse u now c = Except.ok r) ∧
    (∀ u now c fs, c.jsonLd = some (Except.ok (Json.obj fs)) →
       (fs.lookup "offers".data = none ∨
        ∃ os, fs.lookup "offers".data = some (Json.obj os) ∧
          (os.lookup "priceSpecification".data = none ∨
           ∃ ps, os.lookup "priceSpecification".data = some (Json.obj ps))) →
       ∃ r, containerParse u now c = Except.ok r) := by
  constructor
  · intro u now c hj
    unfold containerParse
    rw [hj]
    exact ⟨_, rfl⟩
  · intro u now c fs hj hshape
    unfold containerParse
    rw [hj]
    have hsafe := jsonPhase_safe fs hshape
    have hrun : runJsonLd (some (.ok (Json.obj fs))) =
        .ok (jsonPhase (Json.obj fs)).1 := by
      have h2 := hsafe
      rcases hjp : jsonPhase (Json.obj fs) with ⟨vals, err⟩
      rw [hjp] at h2
      cases err with
      | some e => exact absurd h2 (by simp)
      | none =>
        simp only [runJsonLd, hjp]
    rw [hrun]
    exact ⟨_, rfl⟩

/-- C4 witness: `C4_malformed_jsonld` at concrete containers — a decode
failure and a well-shaped object both still emit a record. -/
theorem C4_witness :
    (∃ r, containerParse BASE_URL NOW_TS C4decodeErr = Except.ok r) ∧
    (∃ r, containerParse BASE_URL NOW_TS C4okObj = Except.ok r) := by
  refine ⟨C4_malformed_jsonld.1 BASE_URL NOW_TS C4decodeErr rfl, ?_⟩
  exact C4_malformed_jsonld.2 BASE_URL NOW_TS C4okObj
    [("description".data, Json.str "Bra bolag till salu i Stockholm".data)] rfl
    (Or.inl rfl)

/-- C4 counterexample: a container whose JSON-LD block decodes to the number
5 — a value of a shape mistyping the expected keys — makes `parse` raise an
uncaught `TypeError` (`'description' in 5` is a `TypeError`, and the
`except` clause only catches `JSONDecodeError` and `KeyError`), so no record
is emitted for the container. -/
theorem C4_counterexample :
    parsePage C4resp NOW_TS =
      { items := [], err := some PyErr.typeError, nextPage := none } := by
  decide

end Scraper
